import Mathlib

/-!
# Verification of the yuragi-haptic-generator synthesis core

Shallow embedding of `backend/src/haptic_system/{waveform,channel,device,
controller,yuragi_animator}.py` over exact rationals.

Modelling conventions:
* Python floats are modelled as `ℚ` (exact arithmetic; float rounding is out
  of scope of the verified statements).
* `np.pi` is the exact rational value of the float64 constant `numpy.pi`
  (`884279719003555 / 2^48`).
* `np.cos` / `np.sin` and the Gaussian noise draw are modelled as explicit
  function parameters (`cosQ`, `sinQ`, `noiseModel`): the theorems below
  quantify over them, so nothing is assumed about the transcendental values.
* Python exceptions are modelled with `Except String` results; where an
  exception can escape after the object was already mutated (the controller
  batch loop), the function returns the mutated state together with an
  optional error.
-/

/-- Exact rational value of the float64 constant `numpy.pi`. -/
def npPi : ℚ := 884279719003555 / 281474976710656

/-- numpy `x % 1.0` (remainder with the sign of the divisor): `x - ⌊x⌋`. -/
def frac (x : ℚ) : ℚ := x - ⌊x⌋

/-- numpy `x % m` for a positive modulus `m`. -/
def qmod (x m : ℚ) : ℚ := x - m * ⌊x / m⌋

/-- Model of `np.clip(x, lo, hi)`. -/
def npClip (x lo hi : ℚ) : ℚ := min (max x lo) hi

/-- Python `int(q)`: truncation toward zero. -/
def pyInt (q : ℚ) : ℤ := if q < 0 then ⌈q⌉ else ⌊q⌋

/-! ## waveform.py -/

/-- Constant `MIN_FREQUENCY = 30.0` (waveform.py). -/
def MIN_FREQUENCY : ℚ := 30

/-- Constant `MAX_FREQUENCY = 120.0` (waveform.py). -/
def MAX_FREQUENCY : ℚ := 120

/-- Constant `MIN_AMPLITUDE = 0.0` (waveform.py). -/
def MIN_AMPLITUDE : ℚ := 0

/-- Constant `MAX_AMPLITUDE = 1.0` (waveform.py). -/
def MAX_AMPLITUDE : ℚ := 1

/-- Model of `SawtoothWaveform._validate_parameters` (waveform.py lines 79-97). -/
def SawtoothWaveform.validateParameters (frequency amplitude : ℚ) :
    Except String Unit :=
  if frequency < MIN_FREQUENCY ∨ frequency > MAX_FREQUENCY then
    .error "Frequency must be between 30.0-120.0Hz"
  else if amplitude < MIN_AMPLITUDE ∨ amplitude > MAX_AMPLITUDE then
    .error "Amplitude must be between 0.0-1.0"
  else .ok ()

/-- Model of `SawtoothWaveform.generate` (waveform.py lines 33-77):
validates, then emits `amplitude * (2*((freq*t + phase_rad/(2π)) % 1) - 1)`
at `t = i / sample_rate` for `i < int(sample_rate * duration)`, negated when
`polarity` is false. -/
def SawtoothWaveform.generate (sample_rate : ℤ) (frequency duration : ℚ)
    (amplitude phase : ℚ) (polarity : Bool) : Except String (List ℚ) :=
  match SawtoothWaveform.validateParameters frequency amplitude with
  | .error e => .error e
  | .ok _ =>
    let num_samples : ℕ := (pyInt ((sample_rate : ℚ) * duration)).toNat
    let phase_rad : ℚ := phase * npPi / 180
    let wave := (List.range num_samples).map (fun (i : ℕ) =>
      amplitude *
        (2 * frac (frequency * ((i : ℚ) / (sample_rate : ℚ))
          + phase_rad / (2 * npPi)) - 1))
    .ok (if polarity then wave else wave.map (fun w => -w))

/-- Resonator coefficient `a0 = 4 + 4*zeta*w_n*dt + (w_n*dt)**2` with
`w_n = 2*np.pi*f_n`, `dt = 1/fs` (waveform.py lines 127-132). -/
def resA0 (fs f_n zeta : ℚ) : ℚ :=
  4 + 4 * zeta * (2 * npPi * f_n) * (1 / fs) + ((2 * npPi * f_n) * (1 / fs)) ^ 2

/-- Resonator coefficient `b0 = (w_n*dt)**2`; the code also sets
`b1 = 2*b0` and `b2 = b0` (waveform.py lines 133-135). -/
def resB0 (fs f_n : ℚ) : ℚ := ((2 * npPi * f_n) * (1 / fs)) ^ 2

/-- Resonator coefficient `a1 = 2*((w_n*dt)**2 - 4)` (waveform.py line 136). -/
def resA1 (fs f_n : ℚ) : ℚ := 2 * (((2 * npPi * f_n) * (1 / fs)) ^ 2 - 4)

/-- Resonator coefficient `a2 = 4 - 4*zeta*w_n*dt + (w_n*dt)**2`
(waveform.py line 137). -/
def resA2 (fs f_n zeta : ℚ) : ℚ :=
  4 - 4 * zeta * (2 * npPi * f_n) * (1 / fs) + ((2 * npPi * f_n) * (1 / fs)) ^ 2

/-- Output sample `y[n]` of the loop in `resonator` (waveform.py lines
139-146): `y` starts as zeros and the loop runs only for `n ≥ 2`, so
`y[0] = y[1] = 0` and for `n ≥ 2`
`y[n] = (b0*u[n] + b1*u[n-1] + b2*u[n-2] - a1*y[n-1] - a2*y[n-2]) / a0`. -/
def resonatorY (u : ℕ → ℚ) (fs f_n zeta : ℚ) : ℕ → ℚ
  | 0 => 0
  | 1 => 0
  | n + 2 =>
      (resB0 fs f_n * u (n + 2) + 2 * resB0 fs f_n * u (n + 1)
          + resB0 fs f_n * u n
          - resA1 fs f_n * resonatorY u fs f_n zeta (n + 1)
          - resA2 fs f_n zeta * resonatorY u fs f_n zeta n)
        / resA0 fs f_n zeta

/-- The output array of `resonator` as a list (same length as the input). -/
def resonatorList (u : List ℚ) (fs f_n zeta : ℚ) : List ℚ :=
  (List.range u.length).map (resonatorY (fun i => u.getD i 0) fs f_n zeta)

/-- Model of `resonator` (waveform.py lines 100-148): validation then the IIR loop.
Each call starts from a fresh all-zero output array: the function keeps no
state between calls. -/
def resonator (u : List ℚ) (fs f_n zeta : ℚ) : Except String (List ℚ) :=
  if fs ≤ 0 then .error "Sampling frequency must be positive"
  else if f_n ≤ 0 then .error "Natural frequency must be positive"
  else if zeta ≤ 0 then .error "Damping ratio must be positive"
  else .ok (resonatorList u fs f_n zeta)

/-! ## channel.py -/

/-- State of `HapticChannel` (channel.py lines 22-59). The RNG object
`noise_rng` is modelled by the seed that constructed it. -/
structure HapticChannel where
  channel_id : ℤ
  sample_rate : ℤ
  is_active : Bool
  current_frequency : ℚ
  current_amplitude : ℚ
  current_phase : ℚ
  current_polarity : Bool
  cumulative_time : ℚ
  resonator_enabled : Bool
  resonator_f_n : ℚ
  resonator_zeta : ℚ
  noise_enabled : Bool
  noise_level : ℚ
  noise_seed : Option ℤ
deriving DecidableEq

/-- The field values assigned by `HapticChannel.__init__` after the
channel-id validation succeeds. -/
def HapticChannel.mkDefault (channel_id sample_rate : ℤ) : HapticChannel where
  channel_id := channel_id
  sample_rate := sample_rate
  is_active := false
  current_frequency := 60
  current_amplitude := 0
  current_phase := 0
  current_polarity := true
  cumulative_time := 0
  resonator_enabled := true
  resonator_f_n := 360
  resonator_zeta := 8 / 100
  noise_enabled := false
  noise_level := 3 / 100
  noise_seed := none

/-- Model of `HapticChannel.__init__` (channel.py lines 22-59), including
`validate_channel_id` (validators.py lines 20-31). -/
def HapticChannel.init (channel_id sample_rate : ℤ) :
    Except String HapticChannel :=
  if channel_id < 0 ∨ channel_id > 3 then .error "Channel ID must be 0-3"
  else .ok (HapticChannel.mkDefault channel_id sample_rate)

/-- Model of `HapticChannel.set_parameters` (channel.py lines 61-84): stores every
provided field; performs no validation and cannot fail. -/
def HapticChannel.set_parameters (ch : HapticChannel)
    (frequency amplitude phase : Option ℚ) (polarity : Option Bool) :
    HapticChannel :=
  { ch with
    current_frequency := frequency.getD ch.current_frequency
    current_amplitude := amplitude.getD ch.current_amplitude
    current_phase := phase.getD ch.current_phase
    current_polarity := polarity.getD ch.current_polarity }

/-- Model of `HapticChannel.activate` (channel.py lines 86-88). -/
def HapticChannel.activate (ch : HapticChannel) : HapticChannel :=
  { ch with is_active := true }

/-- Model of `HapticChannel.deactivate` (channel.py lines 90-92). -/
def HapticChannel.deactivate (ch : HapticChannel) : HapticChannel :=
  { ch with is_active := false }

/-- Model of `HapticChannel.enable_resonator` (channel.py lines 145-155). -/
def HapticChannel.enable_resonator (ch : HapticChannel) (f_n zeta : ℚ) :
    HapticChannel :=
  { ch with resonator_enabled := true, resonator_f_n := f_n,
            resonator_zeta := zeta }

/-- Model of `HapticChannel.disable_resonator` (channel.py lines 157-159). -/
def HapticChannel.disable_resonator (ch : HapticChannel) : HapticChannel :=
  { ch with resonator_enabled := false }

/-- Model of `HapticChannel.enable_noise` (channel.py lines 161-181). -/
def HapticChannel.enable_noise (ch : HapticChannel) (level : ℚ)
    (seed : Option ℤ) : Except String HapticChannel :=
  if level < 0 ∨ level > 1 then
    .error "Noise level must be between 0 and 1.0"
  else .ok { ch with noise_enabled := true, noise_level := level,
                     noise_seed := seed }

/-- Model of `HapticChannel.disable_noise` (channel.py lines 183-186). -/
def HapticChannel.disable_noise (ch : HapticChannel) : HapticChannel :=
  { ch with noise_enabled := false, noise_seed := none }

/-- One sawtooth sample of `get_next_chunk` (channel.py lines 113-120) at
absolute time `t`:
`amplitude * (2 * ((freq * t + phase/360.0) % 1.0) - 1)`, negated when
`current_polarity` is false. -/
def sawSample (ch : HapticChannel) (t : ℚ) : ℚ :=
  let w := ch.current_amplitude *
    (2 * frac (ch.current_frequency * t + ch.current_phase / 360) - 1)
  if ch.current_polarity then w else -w

/-- The sawtooth block of `get_next_chunk`:
`t = np.arange(block_size) / sample_rate + cumulative_time`. -/
def sawBlock (ch : HapticChannel) (block_size : ℕ) : List ℚ :=
  (List.range block_size).map (fun (i : ℕ) =>
    sawSample ch ((i : ℚ) / (ch.sample_rate : ℚ) + ch.cumulative_time))

/-- Model of `HapticChannel.get_next_chunk` (channel.py lines 94-143).

Returns the channel state after the call together with the result of the
call (`.error` models a Python exception escaping from the `resonator`
call; note the state update `cumulative_time += duration` at line 123 has
already happened in that case).  `noiseModel` abstracts the RNG-dependent
noise branch of lines 131-141, which none of the claims exercise. -/
def HapticChannel.get_next_chunk (noiseModel : List ℚ → List ℚ)
    (ch : HapticChannel) (block_size : ℕ) :
    HapticChannel × Except String (List ℚ) :=
  if ¬ ch.is_active ∨ ch.current_amplitude = 0 then
    (ch, .ok (List.replicate block_size 0))
  else
    let duration : ℚ := (block_size : ℚ) / (ch.sample_rate : ℚ)
    let wave := sawBlock ch block_size
    let chNext := { ch with cumulative_time := ch.cumulative_time + duration }
    match (if ch.resonator_enabled then
            resonator wave (ch.sample_rate : ℚ) ch.resonator_f_n
              ch.resonator_zeta
          else .ok wave) with
    | .error e => (chNext, .error e)
    | .ok wave1 =>
        (chNext, .ok (if ch.noise_enabled then noiseModel wave1 else wave1))

/-- Runs `k` successive calls `get_next_chunk(n)`, concatenating the outputs
(stopping at the first exception). -/
def renderSeq (noiseModel : List ℚ → List ℚ) :
    ℕ → HapticChannel → ℕ → HapticChannel × Except String (List ℚ)
  | 0, ch, _ => (ch, .ok [])
  | k + 1, ch, n =>
    match ch.get_next_chunk noiseModel n with
    | (ch1, .ok w1) =>
        match renderSeq noiseModel k ch1 n with
        | (ch2, .ok w2) => (ch2, .ok (w1 ++ w2))
        | (ch2, .error e) => (ch2, .error e)
    | (ch1, .error e) => (ch1, .error e)

/-! ## device.py -/

/-- The fixed four-element channel list of `HapticDevice`. -/
structure Channels4 where
  ch0 : HapticChannel
  ch1 : HapticChannel
  ch2 : HapticChannel
  ch3 : HapticChannel
deriving DecidableEq

/-- Read `channels[i]` for a valid non-negative index `i ≤ 3`. -/
def Channels4.get (cs : Channels4) (i : ℕ) : HapticChannel :=
  if i = 0 then cs.ch0 else if i = 1 then cs.ch1
  else if i = 2 then cs.ch2 else cs.ch3

/-- Write `channels[i]` for a valid non-negative index `i ≤ 3`. -/
def Channels4.set (cs : Channels4) (i : ℕ) (c : HapticChannel) : Channels4 :=
  if i = 0 then { cs with ch0 := c } else if i = 1 then { cs with ch1 := c }
  else if i = 2 then { cs with ch2 := c } else { cs with ch3 := c }

/-- Python list indexing `channels[i]` on the 4-element channel list:
indices `0..3` and negative indices `-4..-1` (which wrap) succeed, any
other index raises `IndexError`. -/
def pyListIdx4 (i : ℤ) : Option ℕ :=
  if 0 ≤ i ∧ i < 4 then some i.toNat
  else if -4 ≤ i ∧ i < 0 then some (i + 4).toNat
  else none

/-- State of `HapticDevice` (device.py lines 17-34). -/
structure HapticDevice where
  sample_rate : ℤ
  channels : Channels4
  discrete_mode_enabled : Bool
  num_directions : ℕ
  direction_step : ℚ
deriving DecidableEq

/-- Model of `HapticDevice.__init__` (device.py lines 17-34): four fresh channels
with ids 0..3, 16-direction mode off. -/
def HapticDevice.init (sample_rate : ℤ) : HapticDevice where
  sample_rate := sample_rate
  channels :=
    ⟨HapticChannel.mkDefault 0 sample_rate, HapticChannel.mkDefault 1 sample_rate,
     HapticChannel.mkDefault 2 sample_rate, HapticChannel.mkDefault 3 sample_rate⟩
  discrete_mode_enabled := false
  num_directions := 16
  direction_step := 45 / 2

/-- Model of `HapticDevice.set_channel_parameters` (device.py lines 36-57):
delegates to the channel when `0 <= channel_id < 4`, otherwise does
nothing and returns normally. -/
def HapticDevice.set_channel_parameters (d : HapticDevice) (channel_id : ℤ)
    (frequency amplitude phase : Option ℚ) (polarity : Option Bool) :
    HapticDevice :=
  if 0 ≤ channel_id ∧ channel_id < 4 then
    let c := (d.channels.get channel_id.toNat).set_parameters
      frequency amplitude phase polarity
    { d with channels := d.channels.set channel_id.toNat c }
  else d

/-- Model of `self.channels[i].activate()` for an in-range index. -/
def HapticDevice.activateChannel (d : HapticDevice) (i : ℕ) : HapticDevice :=
  { d with channels := d.channels.set i ((d.channels.get i).activate) }

/-- Model of `HapticDevice.set_vector_force` (device.py lines 69-123).  `cosQ` and
`sinQ` stand for `np.cos` and `np.sin`; `np.deg2rad(angle)` is
`angle * np.pi / 180`. -/
def HapticDevice.set_vector_force (cosQ sinQ : ℚ → ℚ) (d : HapticDevice)
    (device_id : ℤ) (angle magnitude frequency : ℚ) (phase : ℚ) :
    Except String HapticDevice :=
  if ¬ (device_id = 1 ∨ device_id = 2) then
    .error "Device ID must be 1 or 2"
  else
    let angle_rad := angle * npPi / 180
    let x_amplitude := magnitude * cosQ angle_rad
    let y_amplitude := -(magnitude * sinQ angle_rad)
    let base_channel : ℤ := (device_id - 1) * 2
    let d1 := d.set_channel_parameters base_channel (some frequency)
      (some |x_amplitude|) (some phase) (some (decide (x_amplitude ≥ 0)))
    let d2 := d1.set_channel_parameters (base_channel + 1) (some frequency)
      (some |y_amplitude|) (some phase) (some (decide (y_amplitude ≥ 0)))
    let d3 := d2.activateChannel base_channel.toNat
    .ok (d3.activateChannel (base_channel.toNat + 1))

/-! ## controller.py -/

/-- One entry of the `params["channels"]` batch passed to
`HapticController.update_parameters`; absent dictionary keys are `none`. -/
structure ChannelParamsMsg where
  channel_id : Option ℤ
  frequency : Option ℚ
  amplitude : Option ℚ
  phase : Option ℚ
  polarity : Option Bool
deriving DecidableEq

/-- The body of one iteration of the loop in
`HapticController.update_parameters` (controller.py lines 150-162):
`set_channel_parameters` (which silently ignores out-of-range ids),
followed by `self.device.channels[ch_id].activate()` when the entry's
amplitude is positive — an unguarded Python list index that raises
`IndexError` for `ch_id` outside `-4..3`.  Returns the device state after
the iteration together with the exception, if any. -/
def applyChannelParams (d : HapticDevice) (p : ChannelParamsMsg) :
    HapticDevice × Option String :=
  let ch_id := p.channel_id.getD 0
  let d1 := d.set_channel_parameters ch_id p.frequency p.amplitude p.phase
    p.polarity
  if p.amplitude.getD 0 > 0 then
    match pyListIdx4 ch_id with
    | some i => (d1.activateChannel i, none)
    | none => (d1, some "IndexError: list index out of range")
  else (d1, none)

/-- Model of `HapticController.update_parameters` (controller.py lines 142-162)
acting on the controller's device: the entries are applied strictly in
order with no prior validation; an exception aborts the loop, leaving the
updates of all earlier entries (and the failing entry's
`set_channel_parameters` step) in place. -/
def HapticController.update_parameters :
    HapticDevice → List ChannelParamsMsg → HapticDevice × Option String
  | d, [] => (d, none)
  | d, p :: rest =>
    match applyChannelParams d p with
    | (d1, none) => HapticController.update_parameters d1 rest
    | (d1, some e) => (d1, some e)

/-! ## yuragi_animator.py -/

/-- Model of `YURAGIPresetConfig` (yuragi_animator.py lines 20-33). -/
structure YURAGIPresetConfig where
  initial_angle : ℚ
  magnitude : ℚ
  frequency : ℚ
  rotation_freq : ℚ
  envelope_freq : ℚ
  envelope_depth : ℚ
  enable_speed_modulation : Bool
  enable_amplitude_center_offset : Bool
deriving DecidableEq

/-- The `"default"` preset (yuragi_animator.py lines 64-69), with the
dataclass defaults `envelope_freq=0.2`, `envelope_depth=0.3`. -/
def presetDefault : YURAGIPresetConfig where
  initial_angle := 0
  magnitude := 7 / 10
  frequency := 60
  rotation_freq := 33 / 100
  envelope_freq := 2 / 10
  envelope_depth := 3 / 10
  enable_speed_modulation := false
  enable_amplitude_center_offset := false

/-- One vector-force command dictionary passed to `update_callback`. -/
structure VectorForceCmd where
  device_id : ℤ
  angle : ℚ
  magnitude : ℚ
  frequency : ℚ
deriving DecidableEq

/-- The zero-force command issued by `stop_animation`
(yuragi_animator.py lines 164-172). -/
def zeroCmd (device_id : ℤ) : VectorForceCmd where
  device_id := device_id
  angle := 0
  magnitude := 0
  frequency := 60

/-- One iteration of the animation loop in `_animate_device`
(yuragi_animator.py lines 197-245) at elapsed time `elapsed` with
accumulated phase `phase`: returns the new phase and the emitted command.
`sinQ` stands for `np.sin`. -/
def animTick (sinQ : ℚ → ℚ) (cfg : YURAGIPresetConfig) (device_id : ℤ)
    (elapsed phase : ℚ) : ℚ × VectorForceCmd :=
  let speed_modulation : ℚ :=
    if cfg.enable_speed_modulation then
      npClip (1 + (8 / 10) * sinQ (2 * npPi * (1 / 10) * elapsed)
          + (5 / 10) * sinQ (2 * npPi * (7 / 100) * elapsed + npPi / 3))
        (1 / 10) 3
    else 1
  let instantaneous_freq := cfg.rotation_freq * speed_modulation
  let phaseNext := phase + 2 * npPi * instantaneous_freq * (1 / 60)
  let angle := phaseNext + cfg.initial_angle * npPi / 180
  let angle_degrees := qmod (angle * 180 / npPi) 360
  let envelope_mod := sinQ (2 * npPi * cfg.envelope_freq * elapsed)
    * cfg.envelope_depth
  let magnitude :=
    if cfg.enable_amplitude_center_offset then
      cfg.magnitude * (8 / 10 + envelope_mod * (8 / 10))
    else cfg.magnitude * (1 + envelope_mod)
  (phaseNext, ⟨device_id, angle_degrees, npClip magnitude 0 1, cfg.frequency⟩)

/-- The commands emitted by the `while (time.time() - start_time) <
duration` loop of `_animate_device` (yuragi_animator.py lines 193-248),
given the successive elapsed-time readings `ticks`.  When the loop exits
because the duration elapsed (or the run ends), the function emits
nothing further: the zero-force command exists only in `stop_animation`. -/
def animateCmds (sinQ : ℚ → ℚ) (device_id : ℤ) (cfg : YURAGIPresetConfig)
    (duration : ℚ) : ℚ → List ℚ → List VectorForceCmd
  | _, [] => []
  | phase, e :: es =>
    if e < duration then
      (animTick sinQ cfg device_id e phase).2 ::
        animateCmds sinQ device_id cfg duration
          (animTick sinQ cfg device_id e phase).1 es
    else []

/-- The commands issued by `stop_animation` (yuragi_animator.py lines
145-174): the zero-force command, but only when an animation task is
currently registered for the device. -/
def stopAnimationCmds (device_id : ℤ) (animation_active : Bool) :
    List VectorForceCmd :=
  if animation_active then [zeroCmd device_id] else []

/-! ## Claims -/

/-- C9: for every `channel_id` outside `{0,1,2,3}` and any parameter
values, `HapticDevice.set_channel_parameters` returns normally (the
embedded function is total) and leaves the device, hence all four
channels, unchanged. -/
theorem C9_out_of_range_channel_is_noop (d : HapticDevice) (channel_id : ℤ)
    (frequency amplitude phase : Option ℚ) (polarity : Option Bool)
    (h : channel_id < 0 ∨ 3 < channel_id) :
    d.set_channel_parameters channel_id frequency amplitude phase polarity
      = d := by
  unfold HapticDevice.set_channel_parameters
  rw [if_neg]
  omega

/-- Witness for C9 at `channel_id = 4` on a fresh device. -/
theorem C9_out_of_range_channel_is_noop_witness :
    ((4 : ℤ) < 0 ∨ 3 < (4 : ℤ)) ∧
      (HapticDevice.init 44100).set_channel_parameters 4 (some 60) (some 1)
        (some 0) (some true) = HapticDevice.init 44100 :=
  ⟨by decide,
    C9_out_of_range_channel_is_noop (HapticDevice.init 44100) 4 (some 60)
      (some 1) (some 0) (some true) (by decide)⟩

/-- C10: a freshly constructed `HapticChannel` (valid id) has
`is_active = false`, `amplitude = 0`, `frequency = 60`, `phase = 0`,
rising polarity, `τ = 0`, noise disabled, resonator enabled with
`f_n = 360` and `ζ = 0.08`; consequently its first `get_next_chunk n`
returns `n` zeros (and leaves the state unchanged) for every `n`. -/
theorem C10_fresh_channel_defaults (channel_id sample_rate : ℤ)
    (noiseModel : List ℚ → List ℚ) (n : ℕ)
    (h0 : 0 ≤ channel_id) (h3 : channel_id ≤ 3) :
    HapticChannel.init channel_id sample_rate
        = .ok (HapticChannel.mkDefault channel_id sample_rate)
      ∧ (HapticChannel.mkDefault channel_id sample_rate).is_active = false
      ∧ (HapticChannel.mkDefault channel_id sample_rate).current_amplitude = 0
      ∧ (HapticChannel.mkDefault channel_id sample_rate).current_frequency = 60
      ∧ (HapticChannel.mkDefault channel_id sample_rate).current_phase = 0
      ∧ (HapticChannel.mkDefault channel_id sample_rate).current_polarity = true
      ∧ (HapticChannel.mkDefault channel_id sample_rate).cumulative_time = 0
      ∧ (HapticChannel.mkDefault channel_id sample_rate).noise_enabled = false
      ∧ (HapticChannel.mkDefault channel_id sample_rate).resonator_enabled = true
      ∧ (HapticChannel.mkDefault channel_id sample_rate).resonator_f_n = 360
      ∧ (HapticChannel.mkDefault channel_id sample_rate).resonator_zeta = 8 / 100
      ∧ (HapticChannel.mkDefault channel_id sample_rate).get_next_chunk noiseModel n
          = (HapticChannel.mkDefault channel_id sample_rate,
             .ok (List.replicate n 0)) := by
  refine ⟨?_, rfl, rfl, rfl, rfl, rfl, rfl, rfl, rfl, rfl, rfl, ?_⟩
  · unfold HapticChannel.init
    rw [if_neg]
    omega
  · unfold HapticChannel.get_next_chunk
    rw [if_pos]
    simp [HapticChannel.mkDefault]

/-- Witness for C10 at `channel_id = 0`, `sample_rate = 44100`, `n = 3`. -/
theorem C10_fresh_channel_defaults_witness :
    ((0 : ℤ) ≤ 0 ∧ (0 : ℤ) ≤ 3) ∧
      (HapticChannel.init 0 44100 = .ok (HapticChannel.mkDefault 0 44100)
        ∧ (HapticChannel.mkDefault 0 44100).get_next_chunk id 3
            = (HapticChannel.mkDefault 0 44100, .ok (List.replicate 3 0))) :=
  ⟨by decide,
    (C10_fresh_channel_defaults 0 44100 id 3 (by decide) (by decide)).1,
    (C10_fresh_channel_defaults 0 44100 id 3 (by decide) (by decide)).2.2.2.2.2.2.2.2.2.2.2⟩

/-- C1 counterexample: a fresh (inactive) channel rendered for 512 samples
at 44100 Hz leaves τ at 0, whereas the claim demands that τ advance by
`512/44100` on every call, inactive channels included. -/
theorem C1_counterexample_inactive_render_keeps_tau :
    ((HapticChannel.mkDefault 0 44100).get_next_chunk id 512).1.cumulative_time
        = (HapticChannel.mkDefault 0 44100).cumulative_time
      ∧ (HapticChannel.mkDefault 0 44100).cumulative_time
          ≠ (HapticChannel.mkDefault 0 44100).cumulative_time
            + (512 : ℚ) / 44100 := by
  constructor
  · rfl
  · show (0 : ℚ) ≠ 0 + (512 : ℚ) / 44100
    norm_num

/-- C1 amended: one `get_next_chunk n` call advances τ by
`n / sample_rate` exactly when the channel is active with nonzero
amplitude (even if the resonator call then raises); when the channel is
inactive or its amplitude is 0 it emits `n` zeros and leaves the whole
state — in particular τ — unchanged. -/
theorem C1_amended_tau_advance (noiseModel : List ℚ → List ℚ)
    (ch : HapticChannel) (n : ℕ) :
    ((ch.is_active = true ∧ ch.current_amplitude ≠ 0) →
        (ch.get_next_chunk noiseModel n).1.cumulative_time
          = ch.cumulative_time + (n : ℚ) / (ch.sample_rate : ℚ))
      ∧ (¬ (ch.is_active = true ∧ ch.current_amplitude ≠ 0) →
        ch.get_next_chunk noiseModel n = (ch, .ok (List.replicate n 0))) := by
  constructor
  · rintro ⟨hact, hamp⟩
    unfold HapticChannel.get_next_chunk
    rw [if_neg (by simp [hact, hamp])]
    cases hres : (if ch.resonator_enabled then
        resonator (sawBlock ch n) (ch.sample_rate : ℚ) ch.resonator_f_n
          ch.resonator_zeta
      else .ok (sawBlock ch n)) <;> simp [hres]
  · intro h
    unfold HapticChannel.get_next_chunk
    rw [if_pos]
    rcases Bool.eq_false_or_eq_true ch.is_active with hb | hb
    · right
      by_contra hamp
      exact h ⟨hb, hamp⟩
    · left
      simp [hb]

/-- Witness for C1 amended: an active unit-amplitude channel at 44100 Hz
advances τ by `512/44100`; a fresh inactive channel returns zeros with its
state untouched. -/
theorem C1_amended_tau_advance_witness :
    (({ HapticChannel.mkDefault 0 44100 with
          is_active := true, current_amplitude := 1 } : HapticChannel).is_active
            = true
        ∧ ({ HapticChannel.mkDefault 0 44100 with
          is_active := true, current_amplitude := 1 } : HapticChannel).current_amplitude
            ≠ 0)
      ∧ (({ HapticChannel.mkDefault 0 44100 with
            is_active := true, current_amplitude := 1 } : HapticChannel).get_next_chunk
              id 512).1.cumulative_time
          = ({ HapticChannel.mkDefault 0 44100 with
            is_active := true, current_amplitude := 1 } : HapticChannel).cumulative_time
            + (512 : ℚ) / 44100
      ∧ (HapticChannel.mkDefault 1 44100).get_next_chunk id 7
          = (HapticChannel.mkDefault 1 44100, .ok (List.replicate 7 0)) :=
  ⟨⟨rfl, by norm_num⟩,
    by
      have h := (C1_amended_tau_advance id
        { HapticChannel.mkDefault 0 44100 with
          is_active := true, current_amplitude := 1 } 512).1 ⟨rfl, by norm_num⟩
      simpa using h,
    (C1_amended_tau_advance id (HapticChannel.mkDefault 1 44100) 7).2
      (by simp [HapticChannel.mkDefault])⟩

/-- C4 counterexample: `HapticChannel.set_parameters` accepts a frequency
of 200 Hz — far outside `[MIN_FREQUENCY, MAX_FREQUENCY]` — without any
error, storing it as the current frequency, whereas the claim demands an
`InvalidParam` failure at parameter-set time. -/
theorem C4_counterexample_no_validation_on_set :
    ((200 : ℚ) > MAX_FREQUENCY)
      ∧ ((HapticChannel.mkDefault 0 44100).set_parameters (some 200) none
          none none).current_frequency = 200 := by
  constructor
  · decide
  · rfl

/-- C4 amended: `HapticChannel.set_parameters` performs no validation at
all — it stores any provided values and always returns normally.  The
frequency/amplitude bounds check (`InvalidParam`) exists only inside
`SawtoothWaveform.generate`, which succeeds exactly when
`freq ∈ [MIN_FREQUENCY, MAX_FREQUENCY]` and `amplitude ∈ [0, 1]` — and
which the block-render path (`get_next_chunk`) never invokes. -/
theorem C4_amended_validation_only_in_generate (ch : HapticChannel)
    (f a p : ℚ) (pol : Bool) (sr : ℤ) (dur ph : ℚ) (pol2 : Bool) :
    ch.set_parameters (some f) (some a) (some p) (some pol)
        = { ch with current_frequency := f, current_amplitude := a,
                    current_phase := p, current_polarity := pol }
      ∧ ((∃ w, SawtoothWaveform.generate sr f dur a ph pol2 = .ok w)
          ↔ (MIN_FREQUENCY ≤ f ∧ f ≤ MAX_FREQUENCY
              ∧ MIN_AMPLITUDE ≤ a ∧ a ≤ MAX_AMPLITUDE)) := by
  constructor
  · rfl
  · unfold SawtoothWaveform.generate SawtoothWaveform.validateParameters
    by_cases h1 : f < MIN_FREQUENCY ∨ f > MAX_FREQUENCY
    · rw [if_pos h1]
      constructor
      · rintro ⟨w, hw⟩
        exact absurd hw (by simp)
      · intro h
        exact absurd h1 (by push_neg; constructor <;> linarith [h.1, h.2.1])
    · rw [if_neg h1]
      by_cases h2 : a < MIN_AMPLITUDE ∨ a > MAX_AMPLITUDE
      · rw [if_pos h2]
        constructor
        · rintro ⟨w, hw⟩
          exact absurd hw (by simp)
        · intro h
          exact absurd h2
            (by push_neg; constructor <;> linarith [h.2.2.1, h.2.2.2])
      · rw [if_neg h2]
        push_neg at h1 h2
        exact ⟨fun _ => ⟨h1.1, h1.2, h2.1, h2.2⟩, fun _ => ⟨_, rfl⟩⟩

/-- C5: with `θ = angle·π/180`, `x = magnitude·cos θ`,
`y = −magnitude·sin θ` and `base = (actuator−1)·2`,
`set_vector_force(actuator, angle, magnitude, freq)` sets channel `base`
to `{frequency, |x|, phase 0, polarity x ≥ 0}` and channel `base+1` to
`{frequency, |y|, phase 0, polarity y ≥ 0}` and activates both; for an
actuator outside `{1,2}` it fails with the invalid-actuator error without
touching any channel. -/
theorem C5_vector_force_decomposition (cosQ sinQ : ℚ → ℚ) (d : HapticDevice)
    (angle magnitude frequency : ℚ) :
    (HapticDevice.set_vector_force cosQ sinQ d 1 angle magnitude frequency 0 =
      .ok { d with channels :=
        { d.channels with
          ch0 := { d.channels.ch0 with
            current_frequency := frequency
            current_amplitude := |magnitude * cosQ (angle * npPi / 180)|
            current_phase := 0
            current_polarity := decide (magnitude * cosQ (angle * npPi / 180) ≥ 0)
            is_active := true }
          ch1 := { d.channels.ch1 with
            current_frequency := frequency
            current_amplitude := |(-(magnitude * sinQ (angle * npPi / 180)))|
            current_phase := 0
            current_polarity :=
              decide ((-(magnitude * sinQ (angle * npPi / 180))) ≥ 0)
            is_active := true } } })
    ∧ (HapticDevice.set_vector_force cosQ sinQ d 2 angle magnitude frequency 0 =
      .ok { d with channels :=
        { d.channels with
          ch2 := { d.channels.ch2 with
            current_frequency := frequency
            current_amplitude := |magnitude * cosQ (angle * npPi / 180)|
            current_phase := 0
            current_polarity := decide (magnitude * cosQ (angle * npPi / 180) ≥ 0)
            is_active := true }
          ch3 := { d.channels.ch3 with
            current_frequency := frequency
            current_amplitude := |(-(magnitude * sinQ (angle * npPi / 180)))|
            current_phase := 0
            current_polarity :=
              decide ((-(magnitude * sinQ (angle * npPi / 180))) ≥ 0)
            is_active := true } } })
    ∧ (∀ device_id : ℤ, device_id ≠ 1 → device_id ≠ 2 →
        HapticDevice.set_vector_force cosQ sinQ d device_id angle magnitude
          frequency 0 = .error "Device ID must be 1 or 2") := by
  refine ⟨rfl, rfl, fun device_id h1 h2 => ?_⟩
  unfold HapticDevice.set_vector_force
  rw [if_pos (not_or.mpr ⟨h1, h2⟩)]

/-- Witness for C5 at actuator 3 (and actuator 1) on a fresh device. -/
theorem C5_vector_force_decomposition_witness :
    ((3 : ℤ) ≠ 1) ∧ ((3 : ℤ) ≠ 2) ∧
      HapticDevice.set_vector_force (fun _ => 1) (fun _ => 0)
        (HapticDevice.init 44100) 3 0 1 60 0
        = .error "Device ID must be 1 or 2" :=
  ⟨by decide, by decide,
    (C5_vector_force_decomposition (fun _ => 1) (fun _ => 0)
      (HapticDevice.init 44100) 0 1 60).2.2 3 (by decide) (by decide)⟩

/-- C6: for every prior device state and all arguments,
`set_vector_force` on actuator 1 leaves the entire records of channels 2
and 3 (parameters, active flag, resonator, noise, τ) unchanged, and
`set_vector_force` on actuator 2 likewise leaves channels 0 and 1
unchanged. -/
theorem C6_vector_force_frame (cosQ sinQ : ℚ → ℚ) (d : HapticDevice)
    (angle magnitude frequency phase : ℚ) :
    (∃ d1, HapticDevice.set_vector_force cosQ sinQ d 1 angle magnitude
        frequency phase = .ok d1
      ∧ d1.channels.ch2 = d.channels.ch2 ∧ d1.channels.ch3 = d.channels.ch3)
    ∧ (∃ d2, HapticDevice.set_vector_force cosQ sinQ d 2 angle magnitude
        frequency phase = .ok d2
      ∧ d2.channels.ch0 = d.channels.ch0
      ∧ d2.channels.ch1 = d.channels.ch1) :=
  ⟨⟨_, rfl, rfl, rfl⟩, ⟨_, rfl, rfl, rfl⟩⟩

/-- Index `i` of the resonator output, for `i` within the input length. -/
lemma resonatorList_getD (u : List ℚ) (fs f_n zeta : ℚ) (i : ℕ)
    (h : i < u.length) :
    (resonatorList u fs f_n zeta).getD i 0
      = resonatorY (fun j => u.getD j 0) fs f_n zeta i := by
  unfold resonatorList
  rw [List.getD_eq_getElem?_getD, List.getElem?_map, List.getElem?_range h]
  rfl

/-- The constant `npPi` is positive. -/
lemma npPi_pos : 0 < npPi := by norm_num [npPi]

/-- The coefficient `b0` is positive for positive `fs`, `f_n`. -/
lemma resB0_pos (fs f_n : ℚ) (hfs : 0 < fs) (hfn : 0 < f_n) :
    0 < resB0 fs f_n := by
  have hpi := npPi_pos
  unfold resB0
  positivity

/-- The coefficient `a0` is positive for positive `fs`, `f_n`, `zeta`. -/
lemma resA0_pos (fs f_n zeta : ℚ) (hfs : 0 < fs) (hfn : 0 < f_n)
    (hz : 0 < zeta) : 0 < resA0 fs f_n zeta := by
  have hpi := npPi_pos
  unfold resA0
  positivity

/-- The resonator's validation passes on positive `fs`, `f_n`, `zeta`. -/
lemma resonator_ok (u : List ℚ) (fs f_n zeta : ℚ) (hfs : 0 < fs)
    (hfn : 0 < f_n) (hz : 0 < zeta) :
    resonator u fs f_n zeta = .ok (resonatorList u fs f_n zeta) := by
  unfold resonator
  rw [if_neg (not_le.mpr hfs), if_neg (not_le.mpr hfn), if_neg (not_le.mpr hz)]

/-- C3 counterexample: on input `u = [1, 0, 0]` (with `fs = 1`,
`f_n = 360`, `ζ = 0.08`) the code's resonator emits `y[0] = 0`, while the
claimed difference equation at `n = 0` — with the history pairs
`u[−1], u[−2], y[−1], y[−2]` initialized to zeros — requires
`y[0] = b₀·u[0]/a₀ ≠ 0`.  The loop simply never computes indices 0 and 1,
so the claimed equation fails at those indices. -/
theorem C3_counterexample_difference_equation_fails_at_0 :
    (resonatorList [1, 0, 0] 1 360 (8 / 100)).getD 0 0 = 0
      ∧ (resB0 1 360 * (1 : ℚ) + 2 * resB0 1 360 * 0 + resB0 1 360 * 0
          - resA1 1 360 * 0 - resA2 1 360 (8 / 100) * 0)
          / resA0 1 360 (8 / 100) ≠ 0 := by
  constructor
  · rw [resonatorList_getD [1, 0, 0] 1 360 (8 / 100) 0 (by norm_num)]
    rfl
  · have hb : (resB0 1 360 * (1 : ℚ) + 2 * resB0 1 360 * 0 + resB0 1 360 * 0
        - resA1 1 360 * 0 - resA2 1 360 (8 / 100) * 0) = resB0 1 360 := by
      ring
    rw [hb]
    exact ne_of_gt (div_pos (resB0_pos 1 360 (by norm_num) (by norm_num))
      (resA0_pos 1 360 (8 / 100) (by norm_num) (by norm_num) (by norm_num)))

/-- C3 amended: the resonator output satisfies the difference equation
`y[n] = (b₀u[n] + b₁u[n−1] + b₂u[n−2] − a₁y[n−1] − a₂y[n−2])/a₀` only for
`n ≥ 2`; the first two outputs are forced to `y[0] = y[1] = 0`.  No
history persists across blocks: the filter is a pure function of its
input block, and `get_next_chunk` filters every block afresh from zero
state (so a change of `fₙ` or `ζ` between blocks trivially resets
nothing, there being no carried history). -/
theorem C3_amended_difference_equation (u : List ℚ) (fs f_n zeta : ℚ)
    (n : ℕ) (hn : 2 ≤ n) (hlen : n < u.length) (hfs : 0 < fs)
    (hfn : 0 < f_n) (hz : 0 < zeta) :
    resonator u fs f_n zeta = .ok (resonatorList u fs f_n zeta)
      ∧ (resonatorList u fs f_n zeta).getD 0 0 = 0
      ∧ (resonatorList u fs f_n zeta).getD 1 0 = 0
      ∧ (resonatorList u fs f_n zeta).getD n 0 =
          (resB0 fs f_n * u.getD n 0 + 2 * resB0 fs f_n * u.getD (n - 1) 0
              + resB0 fs f_n * u.getD (n - 2) 0
              - resA1 fs f_n * (resonatorList u fs f_n zeta).getD (n - 1) 0
              - resA2 fs f_n zeta
                * (resonatorList u fs f_n zeta).getD (n - 2) 0)
            / resA0 fs f_n zeta
      ∧ (∀ (noiseModel : List ℚ → List ℚ) (ch : HapticChannel) (m : ℕ),
          ch.is_active = true → ch.current_amplitude ≠ 0 →
          ch.resonator_enabled = true → ch.noise_enabled = false →
          0 < (ch.sample_rate : ℚ) → 0 < ch.resonator_f_n →
          0 < ch.resonator_zeta →
          ch.get_next_chunk noiseModel m
            = ({ ch with cumulative_time :=
                  ch.cumulative_time + (m : ℚ) / (ch.sample_rate : ℚ) },
               .ok (resonatorList (sawBlock ch m) (ch.sample_rate : ℚ)
                 ch.resonator_f_n ch.resonator_zeta))) := by
  obtain ⟨m, rfl⟩ : ∃ m, n = m + 2 := ⟨n - 2, by omega⟩
  refine ⟨?_, ?_, ?_, ?_, ?_⟩
  · exact resonator_ok u fs f_n zeta hfs hfn hz
  · rw [resonatorList_getD u fs f_n zeta 0 (by omega)]
    rfl
  · rw [resonatorList_getD u fs f_n zeta 1 (by omega)]
    rfl
  · rw [resonatorList_getD u fs f_n zeta (m + 2) hlen,
      show m + 2 - 1 = m + 1 from rfl, show m + 2 - 2 = m from rfl,
      resonatorList_getD u fs f_n zeta (m + 1) (by omega),
      resonatorList_getD u fs f_n zeta m (by omega)]
    simp only [resonatorY]
  · intro noiseModel ch m hact hamp hres hnoise hsr hfn2 hz2
    unfold HapticChannel.get_next_chunk
    rw [if_neg (by simp [hact, hamp])]
    simp only [hres, hnoise, Bool.false_eq_true, ite_true, ite_false,
      resonator_ok (sawBlock ch m) (ch.sample_rate : ℚ) ch.resonator_f_n
        ch.resonator_zeta hsr hfn2 hz2]

/-- Witness for C3 amended at `u = [1, 2, 3, 4]`, `n = 2`, `fs = 1`,
`f_n = 360`, `ζ = 0.08`. -/
theorem C3_amended_difference_equation_witness :
    ((2 : ℕ) ≤ 2 ∧ 2 < ([1, 2, 3, 4] : List ℚ).length ∧ (0 : ℚ) < 1
        ∧ (0 : ℚ) < 360 ∧ (0 : ℚ) < 8 / 100)
      ∧ resonator [1, 2, 3, 4] 1 360 (8 / 100)
          = .ok (resonatorList [1, 2, 3, 4] 1 360 (8 / 100))
      ∧ (resonatorList [1, 2, 3, 4] 1 360 (8 / 100)).getD 0 0 = 0 := by
  refine ⟨⟨le_refl 2, by norm_num, by norm_num, by norm_num, by norm_num⟩,
    ?_, ?_⟩
  · exact (C3_amended_difference_equation [1, 2, 3, 4] 1 360 (8 / 100) 2
      (le_refl 2) (by norm_num) (by norm_num) (by norm_num) (by norm_num)).1
  · exact (C3_amended_difference_equation [1, 2, 3, 4] 1 360 (8 / 100) 2
      (le_refl 2) (by norm_num) (by norm_num) (by norm_num) (by norm_num)).2.1

/-- Device `set_channel_parameters` is a no-op for an out-of-range channel id. -/
lemma set_channel_parameters_oob (d : HapticDevice) (channel_id : ℤ)
    (frequency amplitude phase : Option ℚ) (polarity : Option Bool)
    (h : ¬ (0 ≤ channel_id ∧ channel_id < 4)) :
    d.set_channel_parameters channel_id frequency amplitude phase polarity
      = d := by
  unfold HapticDevice.set_channel_parameters
  rw [if_neg h]

/-- A batch entry that cannot raise `IndexError` inside
`update_parameters`: its channel id indexes the 4-element list, or its
amplitude is not positive (so the `activate` line is skipped). -/
def entryOk (p : ChannelParamsMsg) : Prop :=
  (pyListIdx4 (p.channel_id.getD 0)).isSome = true
    ∨ ¬ (p.amplitude.getD 0 > 0)

/-- An `entryOk` entry applies without raising. -/
lemma applyChannelParams_ok (d : HapticDevice) (p : ChannelParamsMsg)
    (hp : entryOk p) :
    applyChannelParams d p = ((applyChannelParams d p).1, none) := by
  unfold applyChannelParams
  by_cases ha : p.amplitude.getD 0 > 0
  · rcases hp with h | h
    · rw [if_pos ha]
      obtain ⟨i, hi⟩ := Option.isSome_iff_exists.mp h
      rw [hi]
    · exact absurd ha h
  · rw [if_neg ha]

/-- An entry that is not `entryOk` raises `IndexError` after its (no-op)
`set_channel_parameters` step, leaving the device unchanged. -/
lemma applyChannelParams_fail (d : HapticDevice) (p : ChannelParamsMsg)
    (hp : ¬ entryOk p) :
    applyChannelParams d p
      = (d, some "IndexError: list index out of range") := by
  unfold entryOk at hp
  rw [not_or, not_not] at hp
  obtain ⟨h1, h2⟩ := hp
  have h1n : pyListIdx4 (p.channel_id.getD 0) = none := by
    cases hid : pyListIdx4 (p.channel_id.getD 0) with
    | none => rfl
    | some i => exact absurd (by rw [hid]; rfl) h1
  have hoob : ¬ (0 ≤ p.channel_id.getD 0 ∧ p.channel_id.getD 0 < 4) := by
    intro hc
    rw [pyListIdx4, if_pos hc] at h1n
    exact Option.some_ne_none _ h1n
  unfold applyChannelParams
  rw [if_pos h2, h1n,
    set_channel_parameters_oob d (p.channel_id.getD 0) p.frequency
      p.amplitude p.phase p.polarity hoob]

/-- C7 counterexample: the batch
`[{channel 0, amplitude 1}, {channel 5, amplitude 1}]` fails (the second
entry raises `IndexError` at the `activate` line), yet channel 0's
amplitude has changed from 0 to 1 — the device is left half-updated, so
`update_parameters` is not atomic and performs no prior validation. -/
theorem C7_counterexample_batch_not_atomic :
    (HapticController.update_parameters (HapticDevice.init 44100)
        [⟨some 0, none, some 1, none, none⟩, ⟨some 5, none, some 1, none, none⟩]).2
        = some "IndexError: list index out of range"
      ∧ (HapticController.update_parameters (HapticDevice.init 44100)
          [⟨some 0, none, some 1, none, none⟩,
           ⟨some 5, none, some 1, none, none⟩]).1.channels.ch0.current_amplitude
          = 1
      ∧ (HapticDevice.init 44100).channels.ch0.current_amplitude = 0
      ∧ (1 : ℚ) ≠ 0 := by
  refine ⟨rfl, rfl, rfl, ?_⟩
  norm_num

/-- C7 amended: `update_parameters` performs no up-front validation and is
not atomic.  It applies the entries strictly in order; a batch whose
entries are all applicable succeeds entry by entry, while a batch
containing a failing entry (out-of-range channel id with positive
amplitude, which raises `IndexError` at the `activate` line) stops there
— with every earlier entry already applied and the remaining entries
dropped. -/
theorem C7_amended_sequential_application (d : HapticDevice) :
    (∀ batch : List ChannelParamsMsg, (∀ q ∈ batch, entryOk q) →
        HapticController.update_parameters d batch
          = (batch.foldl (fun s q => (applyChannelParams s q).1) d, none))
      ∧ (∀ (pre : List ChannelParamsMsg) (p : ChannelParamsMsg)
          (rest : List ChannelParamsMsg),
          (∀ q ∈ pre, entryOk q) → ¬ entryOk p →
          HapticController.update_parameters d (pre ++ p :: rest)
            = (pre.foldl (fun s q => (applyChannelParams s q).1) d,
               some "IndexError: list index out of range")) := by
  constructor
  · intro batch
    induction batch generalizing d with
    | nil => intro _; rfl
    | cons p rest ih =>
      intro hall
      rw [HapticController.update_parameters,
        applyChannelParams_ok d p (hall p (List.mem_cons_self p rest))]
      exact ih (applyChannelParams d p).1
        (fun q hq => hall q (List.mem_cons_of_mem p hq))
  · intro pre p rest hpre hp
    induction pre generalizing d with
    | nil =>
      rw [List.nil_append, HapticController.update_parameters,
        applyChannelParams_fail d p hp]
      rfl
    | cons q qs ih =>
      rw [List.cons_append, HapticController.update_parameters,
        applyChannelParams_ok d q (hpre q (List.mem_cons_self q qs))]
      exact ih (applyChannelParams d q).1
        (fun r hr => hpre r (List.mem_cons_of_mem q hr))

/-- Witness for C7 amended: a singleton applicable batch succeeds; the
batch consisting of only `{channel 5, amplitude 1}` fails with the device
unchanged. -/
theorem C7_amended_sequential_application_witness :
    (∀ q ∈ ([⟨some 1, none, some 1, none, none⟩] : List ChannelParamsMsg),
        entryOk q)
      ∧ ¬ entryOk (⟨some 5, none, some 1, none, none⟩ : ChannelParamsMsg)
      ∧ HapticController.update_parameters (HapticDevice.init 44100)
          [⟨some 1, none, some 1, none, none⟩]
          = (([⟨some 1, none, some 1, none, none⟩] :
              List ChannelParamsMsg).foldl
              (fun s q => (applyChannelParams s q).1) (HapticDevice.init 44100),
             none)
      ∧ HapticController.update_parameters (HapticDevice.init 44100)
          ([] ++ (⟨some 5, none, some 1, none, none⟩ : ChannelParamsMsg) :: [])
          = (HapticDevice.init 44100,
             some "IndexError: list index out of range") := by
  have hok : ∀ q ∈ ([⟨some 1, none, some 1, none, none⟩] :
      List ChannelParamsMsg), entryOk q := by
    intro q hq
    rw [List.mem_singleton] at hq
    subst hq
    left
    rfl
  have hbad : ¬ entryOk (⟨some 5, none, some 1, none, none⟩ :
      ChannelParamsMsg) := by
    unfold entryOk pyListIdx4
    norm_num
  refine ⟨hok, hbad,
    (C7_amended_sequential_application (HapticDevice.init 44100)).1 _ hok, ?_⟩
  have h := (C7_amended_sequential_application (HapticDevice.init 44100)).2
    [] _ [] (by intro q hq; cases hq) hbad
  simpa using h

/-- C8 counterexample: a `default`-preset animation that runs to its
natural end (second clock reading `2 ≥ duration 1` exits the `while`
loop) emits as its final action the last in-loop command, whose magnitude
is `0.7`, not a zero-magnitude command; the zero command exists only in
`stop_animation`.  The stub `fun _ => 0` stands for `np.sin`, which is
evaluated only at argument `0` in this run, where `np.sin` is exactly 0. -/
theorem C8_counterexample_no_zero_on_natural_completion :
    (animateCmds (fun _ => 0) 1 presetDefault 1 0 [0, 2]).map
        VectorForceCmd.magnitude = [7 / 10]
      ∧ (7 : ℚ) / 10 ≠ 0 := by
  constructor
  · norm_num [animateCmds, animTick, presetDefault, npClip, min_def, max_def]
  · norm_num

/-- C8 amended: the zero-magnitude command is issued only by
`stop_animation` on a still-registered task (cancellation or
supersession): there it is the final action.  A task that exits its loop
because the duration elapsed emits exactly one command per in-duration
tick and nothing afterwards — no trailing zero-magnitude command. -/
theorem C8_amended_zero_only_on_stop (sinQ : ℚ → ℚ) (device_id : ℤ)
    (cfg : YURAGIPresetConfig) (duration : ℚ) :
    (∀ (phase : ℚ) (ticks1 : List ℚ) (e : ℚ) (ticks2 : List ℚ),
        (∀ x ∈ ticks1, x < duration) → ¬ (e < duration) →
        animateCmds sinQ device_id cfg duration phase (ticks1 ++ e :: ticks2)
            = animateCmds sinQ device_id cfg duration phase ticks1
          ∧ (animateCmds sinQ device_id cfg duration phase ticks1).length
              = ticks1.length)
      ∧ (∀ cmds : List VectorForceCmd,
          (cmds ++ stopAnimationCmds device_id true).getLast?
            = some (zeroCmd device_id))
      ∧ (zeroCmd device_id).magnitude = 0
      ∧ stopAnimationCmds device_id false = [] := by
  refine ⟨?_, ?_, rfl, rfl⟩
  · intro phase ticks1
    induction ticks1 generalizing phase with
    | nil =>
      intro e ticks2 _ he
      refine ⟨?_, rfl⟩
      rw [List.nil_append]
      simp only [animateCmds]
      rw [if_neg he]
    | cons t ts ih =>
      intro e ticks2 hall he
      have ht : t < duration := hall t (List.mem_cons_self t ts)
      have hts : ∀ x ∈ ts, x < duration :=
        fun x hx => hall x (List.mem_cons_of_mem t hx)
      constructor
      · rw [List.cons_append]
        simp only [animateCmds]
        rw [if_pos ht, (ih _ e ticks2 hts he).1, if_pos ht]
      · simp only [animateCmds]
        rw [if_pos ht, List.length_cons, (ih _ e ticks2 hts he).2,
          List.length_cons]
  · intro cmds
    rw [show stopAnimationCmds device_id true = [zeroCmd device_id] from rfl]
    exact List.getLast?_concat cmds

/-- Witness for C8 amended with ticks `[0]`, out-of-duration reading `2`,
duration `1`, preset `default`. -/
theorem C8_amended_zero_only_on_stop_witness :
    (∀ x ∈ ([0] : List ℚ), x < 1) ∧ ¬ ((2 : ℚ) < 1)
      ∧ animateCmds (fun _ => 0) 1 presetDefault 1 0 ([0] ++ 2 :: [])
          = animateCmds (fun _ => 0) 1 presetDefault 1 0 [0]
      ∧ (animateCmds (fun _ => 0) 1 presetDefault 1 0 [0]).length = 1
      ∧ ([] ++ stopAnimationCmds 1 true).getLast? = some (zeroCmd 1) := by
  have h1 : ∀ x ∈ ([0] : List ℚ), x < 1 := by
    intro x hx
    rw [List.mem_singleton] at hx
    subst hx
    norm_num
  have h2 : ¬ ((2 : ℚ) < 1) := by norm_num
  obtain ⟨ha, hb⟩ := (C8_amended_zero_only_on_stop (fun _ => 0) 1
    presetDefault 1).1 0 [0] 2 [] h1 h2
  exact ⟨h1, h2, ha, hb,
    (C8_amended_zero_only_on_stop (fun _ => 0) 1 presetDefault 1).2.1 []⟩

/-- A `sawBlock` has one sample per index. -/
lemma sawBlock_length (ch : HapticChannel) (n : ℕ) :
    (sawBlock ch n).length = n := by
  simp [sawBlock]

/-- The resonator output has the length of its input. -/
lemma resonatorList_length (u : List ℚ) (fs f_n zeta : ℚ) :
    (resonatorList u fs f_n zeta).length = u.length := by
  simp [resonatorList]

/-- Sample `i` of a sawtooth block. -/
lemma sawBlock_getD (ch : HapticChannel) (n i : ℕ) (h : i < n) :
    (sawBlock ch n).getD i 0
      = sawSample ch ((i : ℚ) / (ch.sample_rate : ℚ) + ch.cumulative_time) := by
  unfold sawBlock
  rw [List.getD_eq_getElem?_getD, List.getElem?_map, List.getElem?_range h]
  rfl

/-- A render on an inactive (or zero-amplitude) channel: `n` zeros, state
untouched. -/
lemma get_next_chunk_zeros (noiseModel : List ℚ → List ℚ)
    (ch : HapticChannel) (n : ℕ)
    (h : ¬ (ch.is_active = true ∧ ch.current_amplitude ≠ 0)) :
    ch.get_next_chunk noiseModel n = (ch, .ok (List.replicate n 0)) := by
  unfold HapticChannel.get_next_chunk
  rw [if_pos]
  rcases Bool.eq_false_or_eq_true ch.is_active with hb | hb
  · right
    by_contra hamp
    exact h ⟨hb, hamp⟩
  · left
    simp [hb]

/-- A render on an active channel with the resonator and noise disabled:
the raw sawtooth block, with τ advanced by `n / sample_rate`. -/
lemma get_next_chunk_plain (noiseModel : List ℚ → List ℚ)
    (ch : HapticChannel) (n : ℕ) (hact : ch.is_active = true)
    (hamp : ch.current_amplitude ≠ 0) (hres : ch.resonator_enabled = false)
    (hnoise : ch.noise_enabled = false) :
    ch.get_next_chunk noiseModel n
      = ({ ch with cumulative_time :=
            ch.cumulative_time + (n : ℚ) / (ch.sample_rate : ℚ) },
         .ok (sawBlock ch n)) := by
  unfold HapticChannel.get_next_chunk
  rw [if_neg (by simp [hact, hamp])]
  simp only [hres, hnoise, Bool.false_eq_true, ite_false]

/-- A render on an active channel with the resonator enabled (valid
parameters) and noise disabled: each block is the sawtooth block filtered
afresh from zero filter state. -/
lemma get_next_chunk_resonator (noiseModel : List ℚ → List ℚ)
    (ch : HapticChannel) (n : ℕ) (hact : ch.is_active = true)
    (hamp : ch.current_amplitude ≠ 0) (hres : ch.resonator_enabled = true)
    (hnoise : ch.noise_enabled = false) (hsr : 0 < (ch.sample_rate : ℚ))
    (hfn : 0 < ch.resonator_f_n) (hz : 0 < ch.resonator_zeta) :
    ch.get_next_chunk noiseModel n
      = ({ ch with cumulative_time :=
            ch.cumulative_time + (n : ℚ) / (ch.sample_rate : ℚ) },
         .ok (resonatorList (sawBlock ch n) (ch.sample_rate : ℚ)
           ch.resonator_f_n ch.resonator_zeta)) := by
  unfold HapticChannel.get_next_chunk
  rw [if_neg (by simp [hact, hamp])]
  simp only [hres, hnoise, Bool.false_eq_true, ite_true, ite_false,
    resonator_ok (sawBlock ch n) (ch.sample_rate : ℚ) ch.resonator_f_n
      ch.resonator_zeta hsr hfn hz]

/-- Splitting a sawtooth block: the last `b` samples of an `(a + b)`-block
are the `b`-block rendered from τ advanced by `a / sample_rate`. -/
lemma sawBlock_add (ch : HapticChannel) (a b : ℕ) :
    sawBlock ch (a + b)
      = sawBlock ch a
        ++ sawBlock { ch with cumulative_time :=
            ch.cumulative_time + (a : ℚ) / (ch.sample_rate : ℚ) } b := by
  unfold sawBlock
  rw [List.range_add, List.map_append, List.map_map]
  congr 1
  congr 1
  funext i
  show sawSample ch (((a + i : ℕ) : ℚ) / (ch.sample_rate : ℚ)
      + ch.cumulative_time)
    = sawSample ch ((i : ℚ) / (ch.sample_rate : ℚ)
      + (ch.cumulative_time + (a : ℚ) / (ch.sample_rate : ℚ)))
  congr 1
  push_cast
  ring

/-- Running `k` renders of size `n` on an inactive channel: `k·n` zeros. -/
lemma renderSeq_inactive (noiseModel : List ℚ → List ℚ) (k : ℕ)
    (ch : HapticChannel) (n : ℕ)
    (h : ¬ (ch.is_active = true ∧ ch.current_amplitude ≠ 0)) :
    renderSeq noiseModel k ch n = (ch, .ok (List.replicate (k * n) 0)) := by
  induction k with
  | zero => simp [renderSeq]
  | succ k ih =>
    simp only [renderSeq, get_next_chunk_zeros noiseModel ch n h, ih]
    rw [show (k + 1) * n = n + k * n from by ring, List.replicate_add]

/-- Running `k` renders of size `n` on an active resonator-free noise-free
channel: exactly the `(k·n)`-sample sawtooth block from the same τ. -/
lemma renderSeq_plain (noiseModel : List ℚ → List ℚ) (k : ℕ)
    (ch : HapticChannel) (n : ℕ) (hact : ch.is_active = true)
    (hamp : ch.current_amplitude ≠ 0) (hres : ch.resonator_enabled = false)
    (hnoise : ch.noise_enabled = false) :
    renderSeq noiseModel k ch n
      = ({ ch with cumulative_time :=
            ch.cumulative_time + ((k * n : ℕ) : ℚ) / (ch.sample_rate : ℚ) },
         .ok (sawBlock ch (k * n))) := by
  induction k generalizing ch with
  | zero =>
    simp only [renderSeq, Nat.zero_mul, Nat.cast_zero, zero_div, add_zero]
    rw [show sawBlock ch 0 = [] from rfl]
  | succ k ih =>
    have h2 := ih { ch with cumulative_time :=
        ch.cumulative_time + (n : ℚ) / (ch.sample_rate : ℚ) }
      hact hamp hres hnoise
    simp only [renderSeq,
      get_next_chunk_plain noiseModel ch n hact hamp hres hnoise, h2]
    rw [show (k + 1) * n = n + k * n from by ring, sawBlock_add ch n (k * n)]
    refine Prod.ext ?_ rfl
    show HapticChannel.mk _ _ _ _ _ _ _
        (ch.cumulative_time + (n : ℚ) / (ch.sample_rate : ℚ)
          + ((k * n : ℕ) : ℚ) / (ch.sample_rate : ℚ)) _ _ _ _ _ _
      = HapticChannel.mk _ _ _ _ _ _ _
        (ch.cumulative_time + ((n + k * n : ℕ) : ℚ) / (ch.sample_rate : ℚ))
        _ _ _ _ _ _
    congr 1
    push_cast
    ring

/-- C2 amended: phase continuity of the raw sawtooth path — for a channel
whose resonator and noise are disabled, concatenating `k` successive
`get_next_chunk(n)` outputs equals, sample for sample (exactly, in the
rational model), the single `get_next_chunk(k·n)` output from the same
starting τ.  With the default-enabled resonator the property fails (see
the counterexample): the filter re-zeroes its state on every call. -/
theorem C2_amended_concat_equals_single (noiseModel : List ℚ → List ℚ)
    (ch : HapticChannel) (k n : ℕ) (hres : ch.resonator_enabled = false)
    (hnoise : ch.noise_enabled = false) (hamp : 0 < ch.current_amplitude) :
    (renderSeq noiseModel k ch n).2 = (ch.get_next_chunk noiseModel (k * n)).2 := by
  rcases Bool.eq_false_or_eq_true ch.is_active with hact | hact
  · rw [renderSeq_plain noiseModel k ch n hact (ne_of_gt hamp) hres hnoise,
      get_next_chunk_plain noiseModel ch (k * n) hact (ne_of_gt hamp) hres
        hnoise]
  · rw [renderSeq_inactive noiseModel k ch n (by simp [hact]),
      get_next_chunk_zeros noiseModel ch (k * n) (by simp [hact])]

/-- The concrete channel of the C2 amended witness: fresh channel 0 at
sample rate 2, activated with amplitude 1, resonator disabled. -/
def c2PlainChannel : HapticChannel :=
  { HapticChannel.mkDefault 0 2 with
      is_active := true, current_amplitude := 1, resonator_enabled := false }

/-- Witness for C2 amended: `k = 3` renders of 2 samples versus one
render of 6 on `c2PlainChannel`. -/
theorem C2_amended_concat_equals_single_witness :
    (c2PlainChannel.resonator_enabled = false
      ∧ c2PlainChannel.noise_enabled = false
      ∧ (0 : ℚ) < c2PlainChannel.current_amplitude)
      ∧ (renderSeq id 3 c2PlainChannel 2).2
        = (c2PlainChannel.get_next_chunk id (3 * 2)).2 :=
  ⟨⟨rfl, rfl, by norm_num [c2PlainChannel, HapticChannel.mkDefault]⟩,
    C2_amended_concat_equals_single id c2PlainChannel 3 2 rfl rfl
      (by norm_num [c2PlainChannel, HapticChannel.mkDefault])⟩

/-- The concrete channel of the C2 counterexample: fresh channel 0 at
sample rate 1, activated with amplitude 1, resonator left in its default
enabled state (`f_n = 360`, `ζ = 0.08`). -/
def c2Channel : HapticChannel :=
  { HapticChannel.mkDefault 0 1 with
      is_active := true, current_amplitude := 1 }

/-- State of `c2Channel` after one 2-sample render. -/
def c2ChB : HapticChannel :=
  { c2Channel with cumulative_time :=
      c2Channel.cumulative_time + (2 : ℚ) / (c2Channel.sample_rate : ℚ) }

/-- State of `c2Channel` after two 2-sample renders. -/
def c2ChC : HapticChannel :=
  { c2ChB with cumulative_time :=
      c2ChB.cumulative_time + (2 : ℚ) / (c2ChB.sample_rate : ℚ) }

/-- One successful chunk followed by `k` more renders. -/
lemma renderSeq_succ_ok (noiseModel : List ℚ → List ℚ) (k : ℕ)
    (ch ch1 chF : HapticChannel) (n : ℕ) (w1 wr : List ℚ)
    (H1 : ch.get_next_chunk noiseModel n = (ch1, .ok w1))
    (HR : renderSeq noiseModel k ch1 n = (chF, .ok wr)) :
    renderSeq noiseModel (k + 1) ch n = (chF, .ok (w1 ++ wr)) := by
  rw [renderSeq]
  simp [H1, HR]

/-- C2 counterexample: for a default channel (resonator enabled) with
amplitude 1 at sample rate 1, two successive `get_next_chunk(2)` calls
concatenated differ from one `get_next_chunk(4)` from the same starting
τ: the resonator re-zeroes its history every call, so each 2-sample block
is all zeros while sample 2 of the 4-sample block is `−4b₀/a₀ ≠ 0`. -/
theorem C2_counterexample_resonator_breaks_concat :
    (renderSeq id 2 c2Channel 2).2 ≠ (c2Channel.get_next_chunk id (2 * 2)).2 := by
  have hact : c2Channel.is_active = true := rfl
  have hamp : c2Channel.current_amplitude ≠ 0 := by
    norm_num [c2Channel, HapticChannel.mkDefault]
  have hres : c2Channel.resonator_enabled = true := rfl
  have hnoise : c2Channel.noise_enabled = false := rfl
  have hsr : (0 : ℚ) < (c2Channel.sample_rate : ℚ) := by
    norm_num [c2Channel, HapticChannel.mkDefault]
  have hfn : 0 < c2Channel.resonator_f_n := by
    norm_num [c2Channel, HapticChannel.mkDefault]
  have hz : 0 < c2Channel.resonator_zeta := by
    norm_num [c2Channel, HapticChannel.mkDefault]
  have h1 : c2Channel.get_next_chunk id 2
      = (c2ChB, .ok (resonatorList (sawBlock c2Channel 2)
          (c2Channel.sample_rate : ℚ) c2Channel.resonator_f_n
          c2Channel.resonator_zeta)) :=
    get_next_chunk_resonator id c2Channel 2 hact hamp hres hnoise hsr hfn hz
  have h2 : c2ChB.get_next_chunk id 2
      = (c2ChC, .ok (resonatorList (sawBlock c2ChB 2)
          (c2ChB.sample_rate : ℚ) c2ChB.resonator_f_n c2ChB.resonator_zeta)) :=
    get_next_chunk_resonator id c2ChB 2 hact hamp hres hnoise hsr hfn hz
  have h4 := get_next_chunk_resonator id c2Channel (2 * 2) hact hamp hres
    hnoise hsr hfn hz
  have hstep0 : renderSeq id 0 c2ChC 2 = (c2ChC, .ok []) := by
    rw [renderSeq]
  have hstep1 : renderSeq id 1 c2ChB 2
      = (c2ChC, .ok (resonatorList (sawBlock c2ChB 2)
          (c2ChB.sample_rate : ℚ) c2ChB.resonator_f_n c2ChB.resonator_zeta
          ++ [])) :=
    renderSeq_succ_ok id 0 c2ChB c2ChC c2ChC 2 _ [] h2 hstep0
  have hstep2 : renderSeq id 2 c2Channel 2
      = (c2ChC, .ok (resonatorList (sawBlock c2Channel 2)
          (c2Channel.sample_rate : ℚ) c2Channel.resonator_f_n
          c2Channel.resonator_zeta
          ++ (resonatorList (sawBlock c2ChB 2) (c2ChB.sample_rate : ℚ)
            c2ChB.resonator_f_n c2ChB.resonator_zeta ++ []))) :=
    renderSeq_succ_ok id 1 c2Channel c2ChB c2ChC 2 _ _ h1 hstep1
  rw [hstep2, h4]
  simp only [ne_eq, Except.ok.injEq, List.append_nil]
  intro heq
  have hgd := congrArg (fun l : List ℚ => l.getD 2 0) heq
  simp only at hgd
  have hw1len : (resonatorList (sawBlock c2Channel 2)
      (c2Channel.sample_rate : ℚ) c2Channel.resonator_f_n
      c2Channel.resonator_zeta).length = 2 := by
    rw [resonatorList_length, sawBlock_length]
  rw [List.getD_eq_getElem?_getD,
    List.getElem?_append_right (by rw [hw1len]),
    ← List.getD_eq_getElem?_getD, hw1len,
    show (2 : ℕ) - 2 = 0 from rfl] at hgd
  rw [resonatorList_getD (sawBlock c2ChB 2) _ _ _ 0
    (by rw [sawBlock_length]; norm_num)] at hgd
  rw [resonatorList_getD (sawBlock c2Channel (2 * 2)) _ _ _ 2
    (by rw [sawBlock_length]; norm_num)] at hgd
  simp only [resonatorY] at hgd
  rw [sawBlock_getD c2Channel (2 * 2) 2 (by norm_num),
    sawBlock_getD c2Channel (2 * 2) 1 (by norm_num),
    sawBlock_getD c2Channel (2 * 2) 0 (by norm_num)] at hgd
  have hs0 : sawSample c2Channel
      (((0 : ℕ) : ℚ) / (c2Channel.sample_rate : ℚ) + c2Channel.cumulative_time)
      = -1 := by
    norm_num [sawSample, frac, c2Channel, HapticChannel.mkDefault]
  have hs1 : sawSample c2Channel
      (((1 : ℕ) : ℚ) / (c2Channel.sample_rate : ℚ) + c2Channel.cumulative_time)
      = -1 := by
    norm_num [sawSample, frac, c2Channel, HapticChannel.mkDefault]
  have hs2 : sawSample c2Channel
      (((2 : ℕ) : ℚ) / (c2Channel.sample_rate : ℚ) + c2Channel.cumulative_time)
      = -1 := by
    norm_num [sawSample, frac, c2Channel, HapticChannel.mkDefault]
  rw [hs0, hs1, hs2] at hgd
  have hfs1 : (c2Channel.sample_rate : ℚ) = 1 := by
    norm_num [c2Channel, HapticChannel.mkDefault]
  have hfn1 : c2Channel.resonator_f_n = 360 := rfl
  have hz1 : c2Channel.resonator_zeta = 8 / 100 := rfl
  rw [hfs1, hfn1, hz1] at hgd
  have hb := resB0_pos 1 360 (by norm_num) (by norm_num)
  have ha := resA0_pos 1 360 (8 / 100) (by norm_num) (by norm_num)
    (by norm_num)
  have hval : (resB0 1 360 * (-1) + 2 * resB0 1 360 * (-1)
      + resB0 1 360 * (-1) - resA1 1 360 * 0 - resA2 1 360 (8 / 100) * 0)
      / resA0 1 360 (8 / 100)
      = -((4 * resB0 1 360) / resA0 1 360 (8 / 100)) := by
    ring
  rw [hval] at hgd
  have hpos : 0 < (4 * resB0 1 360) / resA0 1 360 (8 / 100) :=
    div_pos (by linarith) ha
  linarith [hgd, hpos]
